import Mathlib

/-!
Shallow embedding of the weaver repository (src/weaver/Drive.py and
src/weaver/Machine.py): the disk-layer stack, the process supervisor
helpers decorated with backoff retries, and the monitor dialogues that
drive the qemu console. External effects (tempfile names, qemu-img exit
codes, file contents over time, process liveness over time, socket
connection outcomes, console response bodies) are passed in as explicit
oracle arguments; response bodies are modelled as their line lists
(the result of splitlines on the text read before the prompt).
-/

/-! ### Python string helpers (structural, kernel-evaluable) -/

/-- Does the character list start with the pattern list (first argument)? -/
def listHasPre : List Char → List Char → Bool
  | [], _ => true
  | _ :: _, [] => false
  | a :: as, b :: bs => a == b && listHasPre as bs

/-- Does the character list contain the pattern list as a contiguous run? -/
def listContains (pat : List Char) : List Char → Bool
  | [] => listHasPre pat []
  | c :: cs => listHasPre pat (c :: cs) || listContains pat cs

/-- Models the Python substring test, needle in hay. -/
def strContains (hay needle : String) : Bool :=
  listContains needle.toList hay.toList

/-- Models Python str.startswith. -/
def pyStartsWith (s pre : String) : Bool :=
  listHasPre pre.toList s.toList

/-- Accumulator pass for pyWords: split on whitespace runs, dropping empties. -/
def wordsAux : List Char → List Char → List String
  | [], acc => if acc = [] then [] else [String.mk acc.reverse]
  | c :: cs, acc =>
    if c.isWhitespace then
      if acc = [] then wordsAux cs [] else String.mk acc.reverse :: wordsAux cs []
    else wordsAux cs (c :: acc)

/-- Models Python str.split with no argument: whitespace-delimited words. -/
def pyWords (s : String) : List String := wordsAux s.toList []

/-- Models Python str.strip: remove leading and trailing whitespace. -/
def pyStrip (s : String) : String :=
  String.mk (((s.toList.dropWhile Char.isWhitespace).reverse.dropWhile Char.isWhitespace).reverse)

/-- Digit-run parser used by pyInt: value of a nonempty digit string. -/
def digitsVal (acc : Nat) : List Char → Option Nat
  | [] => some acc
  | c :: cs => if c.isDigit then digitsVal (acc * 10 + (c.toNat - 48)) cs else none

/-- Models Python int(s) on an already stripped string; none models ValueError. -/
def pyInt (s : String) : Option Int :=
  match s.toList with
  | [] => none
  | c :: cs =>
    if c = '-' then
      match cs with
      | [] => none
      | _ :: _ => (digitsVal 0 cs).map (fun n => -(n : Int))
    else if c = '+' then
      match cs with
      | [] => none
      | _ :: _ => (digitsVal 0 cs).map Int.ofNat
    else (digitsVal 0 (c :: cs)).map Int.ofNat

/-- Models the Python negative index xs[-1]; the source only applies it to
the layer stack, which is never empty. -/
def pyLast (l : List String) : String := l.getLastD ""

/-! ### Drive (src/weaver/Drive.py) -/

/-- A Drive as built by Drive.__init__: backing file, interface tag, media
kind, the ordered layer stack (bottom first, top last) and optional index. -/
structure Drive where
  backing_file : String
  interface : Option String
  media : String
  layers : List String
  index : Option Int
deriving Repr, DecidableEq

/-- Drive.__init__: the layer stack starts as the single backing file. -/
def Drive.init (file : String) (interface : Option String) (media : String)
    (index : Option Int) : Drive :=
  ⟨file, interface, media, [file], index⟩

/-- Drive.create_disk_layer: the fresh tempfile name is the oracle argument
name, and exitCode is the exit status of the qemu-img create invocation run
through os.system — the source discards that status, so the new layer is
appended and its name returned unconditionally. The result also records the
backing file the invocation used (the previous top layer). -/
def create_disk_layer (d : Drive) (name : String) (exitCode : Int) :
    Drive × String × String :=
  let current_layer := pyLast d.layers
  ({ d with layers := d.layers ++ [name] }, name, current_layer)

/-- Drive.delete_disk_layer: pops and returns the top layer when more than
one layer exists, otherwise returns None and leaves the stack alone. -/
def delete_disk_layer (d : Drive) : Drive × Option String :=
  if 1 < d.layers.length then
    ({ d with layers := d.layers.dropLast }, d.layers.getLast?)
  else (d, none)

/-- Drive.to_drive_string: joins the if=, file= and index= fields with
commas; the file field names the top of the layer stack. -/
def to_drive_string (d : Drive) : String :=
  let strings : List String :=
    match d.interface with
    | some i => ["if=" ++ i]
    | none => []
  let strings := strings ++ ["file=" ++ pyLast d.layers]
  let strings := strings ++
    (match d.index with
     | some n => ["index=" ++ toString n]
     | none => [])
  String.intercalate "," strings

/-- Drive.snapshots: shells out to qemu-img snapshot -l on the top layer;
snapsOf is the oracle giving the parsed listing for each image path. -/
def Drive.snapshots (snapsOf : String → List String) (d : Drive) : List String :=
  snapsOf (pyLast d.layers)

/-! ### Sequences of layer operations, for the stack invariant -/

/-- One client-visible mutation of a Drive layer stack. -/
inductive DriveOp where
  | push (name : String) (exitCode : Int) : DriveOp
  | pop : DriveOp
deriving Repr, DecidableEq

/-- Run one DriveOp, keeping only the resulting state. -/
def applyOp (d : Drive) : DriveOp → Drive
  | .push nm e => (create_disk_layer d nm e).1
  | .pop => (delete_disk_layer d).1

/-- Run a sequence of DriveOps from a starting state. -/
def applyOps (d : Drive) (ops : List DriveOp) : Drive :=
  ops.foldl applyOp d

theorem applyOps_nil (d : Drive) : applyOps d [] = d := rfl

theorem applyOps_cons (d : Drive) (op : DriveOp) (ops : List DriveOp) :
    applyOps d (op :: ops) = applyOps (applyOp d op) ops := rfl

/-- The head of the layer stack survives every single operation. -/
theorem applyOp_head (d : Drive) (op : DriveOp) (x : String)
    (h : d.layers.head? = some x) : (applyOp d op).layers.head? = some x := by
  cases op with
  | push nm e =>
    simp only [applyOp, create_disk_layer]
    cases hl : d.layers with
    | nil => rw [hl] at h; simp at h
    | cons a t => rw [hl] at h; simp at h; simp [hl, h]
  | pop =>
    simp only [applyOp, delete_disk_layer]
    by_cases hlen : 1 < d.layers.length
    · simp only [hlen, if_pos]
      cases hl : d.layers with
      | nil => rw [hl] at h; simp at h
      | cons a t =>
        rw [hl] at h
        simp at h
        cases t with
        | nil => rw [hl] at hlen; simp at hlen
        | cons b t2 => simp [hl, h, List.dropLast]
    · simp [hlen, h]

/-- The head of the layer stack survives every sequence of operations. -/
theorem applyOps_head (ops : List DriveOp) (d : Drive) (x : String)
    (h : d.layers.head? = some x) : (applyOps d ops).layers.head? = some x := by
  induction ops generalizing d with
  | nil => exact h
  | cons op rest ih => exact ih (applyOp d op) (applyOp_head d op x h)

/-! ### Backoff retry combinators (the backoff decorators used in Machine.py)

A call is a function of the poll time. Fuel counts the remaining retry
opportunities, so fuel + 1 calls are made in all; the decorated functions use
fuel = max_time / interval, matching a constant-interval schedule that stops
retrying once the ceiling elapses. -/

/-- backoff.on_predicate with backoff.constant: retry while the returned
value is falsy; a raised exception propagates immediately; once the ceiling
is reached the last (falsy) value is returned as is. -/
def backoff_on_predicate (call : Nat → Except E A) (truthy : A → Bool)
    (interval : Nat) : Nat → Nat → Except E A
  | 0, t => call t
  | fuel + 1, t =>
    match call t with
    | .error e => .error e
    | .ok v =>
      if truthy v then .ok v
      else backoff_on_predicate call truthy interval fuel (t + interval)

/-- backoff.on_exception with backoff.constant: retry while the call raises;
a successful value returns immediately; once the ceiling is reached the last
exception propagates to the caller. -/
def backoff_on_exception (call : Nat → Except E A) (interval : Nat) :
    Nat → Nat → Except E A
  | 0, t => call t
  | fuel + 1, t =>
    match call t with
    | .ok v => .ok v
    | .error _ => backoff_on_exception call interval fuel (t + interval)

/-! ### get_pid_of_qemu (Machine.py lines 26..35) -/

/-- The only exception a single pidfile read can raise: int() on a nonempty
non-numeric string. -/
inductive PyErr where
  | valueError : PyErr
deriving Repr, DecidableEq

/-- One body execution of get_pid_of_qemu: read the first line of the
pidfile, strip it, return None when empty, else parse the integer. -/
def read_pid_attempt (line : String) : Except PyErr (Option Int) :=
  let val := pyStrip line
  if val = "" then .ok none
  else
    match pyInt val with
    | some n => .ok (some n)
    | none => .error .valueError

/-- Python truthiness of the value returned by the body: None and 0 are
falsy, any other integer is truthy. -/
def pidTruthy : Option Int → Bool
  | none => false
  | some n => n != 0

/-- Decorator parameter interval=1 on get_pid_of_qemu. -/
def GET_PID_INTERVAL : Nat := 1

/-- Decorator parameter max_time=5 on get_pid_of_qemu. -/
def GET_PID_MAX_TIME : Nat := 5

/-- get_pid_of_qemu: the backoff.on_predicate-decorated pidfile read.
fileAt gives the first line of the pidfile at each poll time. -/
def get_pid_of_qemu (fileAt : Nat → String) : Except PyErr (Option Int) :=
  backoff_on_predicate (fun t => read_pid_attempt (fileAt t)) pidTruthy
    GET_PID_INTERVAL (GET_PID_MAX_TIME / GET_PID_INTERVAL) 0

/-! ### kill_qemu (Machine.py lines 221..228) -/

/-- Decorator parameter interval=1 on kill_qemu. -/
def KILL_INTERVAL : Nat := 1

/-- Decorator parameter max_time=5 on kill_qemu. -/
def KILL_MAX_TIME : Nat := 5

/-- The retried body of kill_qemu, with its signalling side effect made
explicit: alive tells whether /proc/pid exists at each poll time; the
result pairs the final return value (True = process gone, success) with
the times at which a SIGINT was sent. A falsy (False) body return is
retried by the decorator until the fuel runs out, and the last value is
then returned as is. -/
def kill_qemu_loop (alive : Nat → Bool) : Nat → Nat → Bool × List Nat
  | 0, t => if alive t then (false, [t]) else (true, [])
  | fuel + 1, t =>
    if alive t then
      let r := kill_qemu_loop alive fuel (t + KILL_INTERVAL)
      (r.1, t :: r.2)
    else (true, [])

/-- kill_qemu: the backoff.on_predicate-decorated signal-and-poll loop. -/
def kill_qemu (alive : Nat → Bool) : Bool × List Nat :=
  kill_qemu_loop alive (KILL_MAX_TIME / KILL_INTERVAL) 0

/-! ### get_serial_socket (Machine.py lines 318..330) -/

/-- The connection exception raised by a failed socket.connect attempt;
this is what propagates past the retry ceiling (the spec's
ConnectionTimeout error kind). -/
inductive ConnectErr where
  | connectionRefused : ConnectErr
deriving Repr, DecidableEq

/-- Decorator parameter interval=1 on get_serial_socket. -/
def SOCKET_INTERVAL : Nat := 1

/-- Decorator parameter max_time=50 on get_serial_socket. -/
def SOCKET_MAX_TIME : Nat := 50

/-- get_serial_socket: the backoff.on_exception-decorated connect loop.
sockAt gives, for each poll time, the socket handle when a connect attempt
at that time succeeds, and none when it raises. -/
def get_serial_socket (sockAt : Nat → Option Nat) : Except ConnectErr Nat :=
  backoff_on_exception
    (fun t =>
      match sockAt t with
      | some s => Except.ok s
      | none => Except.error ConnectErr.connectionRefused)
    SOCKET_INTERVAL (SOCKET_MAX_TIME / SOCKET_INTERVAL) 0

/-! ### Auxiliary facts about the retry loops -/

/-- An exception-retried call at interval 1 that fails at every time it can
be polled propagates the last exception. -/
theorem backoff_on_exception_all_fail1 (call : Nat → Except E A)
    (fuel t : Nat) (h : ∀ u, u ≤ t + fuel → ∃ e, call u = .error e) :
    ∃ e, backoff_on_exception call 1 fuel t = .error e := by
  induction fuel generalizing t with
  | zero => simpa using h t (by omega)
  | succ n ih =>
    obtain ⟨e, he⟩ := h t (by omega)
    have step : backoff_on_exception call 1 (n + 1) t =
        backoff_on_exception call 1 n (t + 1) := by
      simp [backoff_on_exception, he]
    rw [step]
    exact ih (t + 1) (fun u hu => h u (by omega))

/-- An exception-retried call returns the first success, reached after k
steps of failures when k does not exceed the fuel. -/
theorem backoff_on_exception_first_ok (call : Nat → Except E A) (fuel t k : Nat)
    (v : A) (hk : k ≤ fuel)
    (hfail : ∀ j, j < k → ∃ e, call (t + j) = .error e)
    (hok : call (t + k) = .ok v) :
    backoff_on_exception call 1 fuel t = .ok v := by
  induction fuel generalizing t k with
  | zero =>
    interval_cases k
    simpa using hok
  | succ n ih =>
    cases k with
    | zero =>
      simp only [Nat.add_zero] at hok
      simp [backoff_on_exception, hok]
    | succ m =>
      obtain ⟨e, he⟩ := hfail 0 (Nat.succ_pos m)
      simp only [Nat.add_zero] at he
      have step : backoff_on_exception call 1 (n + 1) t =
          backoff_on_exception call 1 n (t + 1) := by
        simp [backoff_on_exception, he]
      rw [step]
      refine ih (t + 1) m (Nat.le_of_succ_le_succ hk) ?_ ?_
      · intro j hj
        have := hfail (j + 1) (Nat.succ_lt_succ hj)
        simpa [Nat.add_assoc, Nat.add_comm 1 j] using this
      · simpa [Nat.add_assoc, Nat.add_comm 1 m] using hok

/-- The signal loop succeeds with no signal as soon as a poll finds the
process gone, provided the polls before it saw it alive and the
disappearance happens within the fuel. -/
theorem kill_qemu_loop_dies (alive : Nat → Bool) (fuel t k : Nat)
    (hk : k ≤ fuel) (hlive : ∀ j, j < k → alive (t + j) = true)
    (hdead : alive (t + k) = false) :
    (kill_qemu_loop alive fuel t).1 = true := by
  induction fuel generalizing t k with
  | zero =>
    interval_cases k
    simp only [Nat.add_zero] at hdead
    simp [kill_qemu_loop, hdead]
  | succ n ih =>
    cases k with
    | zero =>
      simp only [Nat.add_zero] at hdead
      simp [kill_qemu_loop, hdead]
    | succ m =>
      have h0 : alive t = true := by simpa using hlive 0 (Nat.succ_pos m)
      simp only [kill_qemu_loop, h0, if_pos]
      refine ih (t + KILL_INTERVAL) m (Nat.le_of_succ_le_succ hk) ?_ ?_
      · intro j hj
        have := hlive (j + 1) (Nat.succ_lt_succ hj)
        simpa [KILL_INTERVAL, Nat.add_assoc, Nat.add_comm 1 j] using this
      · simpa [KILL_INTERVAL, Nat.add_assoc, Nat.add_comm 1 m] using hdead

/-! ### The monitor dialogue (Machine.py, the qmp_expect conversations)

The connection state carries the queue of response bodies the console will
deliver to successive expect_exact calls (none models a pexpect TIMEOUT, a
body is its splitlines line list) and the trace of observable dialogue
events: lines sent, prompts awaited, settle sleeps. -/

/-- One observable dialogue event. -/
inductive DlgEv where
  | send (line : String) : DlgEv
  | await : DlgEv
  | sleep : DlgEv
deriving Repr, DecidableEq

/-- Connection state of the monitor endpoint. -/
structure Conn where
  pending : List (Option (List String))
  trace : List DlgEv
deriving Repr, DecidableEq

/-- pexpect sendline: emits one line, no implicit wait. -/
def sendline (s : String) (c : Conn) : Conn :=
  { c with trace := c.trace ++ [DlgEv.send s] }

/-- expect_exact on the prompt: consumes the next queued response, records
the await; the returned body is none on TIMEOUT. -/
def expectPrompt (c : Conn) : Option (List String) × Conn :=
  match c.pending with
  | [] => (none, { c with trace := c.trace ++ [DlgEv.await] })
  | r :: rest => (r, { pending := rest, trace := c.trace ++ [DlgEv.await] })

/-- time.sleep(1): the settle delay between dialogue phases. -/
def settle (c : Conn) : Conn :=
  { c with trace := c.trace ++ [DlgEv.sleep] }

/-- Errors a dialogue can raise: a pexpect TIMEOUT on a fatal expect_exact,
or the SnapshotNotFound exception of goto_snapshot. -/
inductive DlgErr where
  | timeout : DlgErr
  | snapshotNotFound : DlgErr
deriving Repr, DecidableEq

/-- A fatal expect_exact on the prompt: a TIMEOUT raises. -/
def expectExact (c : Conn) : Except (DlgErr × Conn) (List String × Conn) :=
  match expectPrompt c with
  | (none, c2) => .error (.timeout, c2)
  | (some b, c2) => .ok (b, c2)

/-- Machine.take_snapshot: an initial drain expect tolerating TIMEOUT, then
stop, savevm, cont, each followed by a prompt wait and a settle sleep. The
savevm line is sent with the trailing newline embedded by the source's
format string. -/
def take_snapshot (name : String) (c : Conn) : Except (DlgErr × Conn) Conn := do
  let c := (expectPrompt c).2
  let c := sendline "stop" c
  let (_, c) ← expectExact c
  let c := settle c
  let c := sendline ("savevm " ++ name ++ "\n") c
  let (_, c) ← expectExact c
  let c := settle c
  let c := sendline "cont" c
  let (_, c) ← expectExact c
  pure (settle c)

/-- The literal sentinel goto_snapshot searches for in the loadvm response. -/
def goto_marker : String := "does not have the requested snapshot"

/-- Machine.goto_snapshot: stop, loadvm, then inspect the loadvm response
body with its first line (the echoed command) dropped; when any remaining
line contains the marker, raise SnapshotNotFound without sending cont,
otherwise cont and wait for the prompt. -/
def goto_snapshot (name : String) (c : Conn) : Except (DlgErr × Conn) Conn := do
  let c := sendline "stop" c
  let (_, c) ← expectExact c
  let c := sendline ("loadvm " ++ name) c
  let (body, c) ← expectExact c
  let rsp := body.drop 1
  if rsp.any (fun r => strContains r goto_marker) then
    .error (.snapshotNotFound, c)
  else
    let c := sendline "cont" c
    let (_, c) ← expectExact c
    pure c

/-- The literal no-snapshots sentinel line of the snapshots property. -/
def no_snapshot_sentinel : String := "There is no snapshot available."

/-- The row loop of the snapshots property: skip rows starting with ID,
take the second whitespace-delimited field of every other row; none models
the IndexError the source raises on a row with fewer than two fields. -/
def parse_rows : List String → Option (List String)
  | [] => some []
  | line :: rest =>
    if pyStartsWith line "ID" then parse_rows rest
    else
      match (pyWords line)[1]? with
      | none => none
      | some nm => (parse_rows rest).map (fun rv => nm :: rv)

/-- The response parse of the snapshots property, applied to the body with
its first line (the echoed command) dropped: the sentinel line anywhere
yields the empty list, otherwise one more header line is dropped and the
remaining rows go through parse_rows. -/
def snapshot_parse (rsp : List String) : Option (List String) :=
  if no_snapshot_sentinel ∈ rsp then some []
  else parse_rows (rsp.drop 1)

/-- The Machine.snapshots property: send info snapshots, wait for the
prompt, parse the body. -/
def Machine.snapshots (c : Conn) :
    Except (DlgErr × Conn) (Option (List String) × Conn) := do
  let c := sendline "info snapshots" c
  let (body, c) ← expectExact c
  let rsp := body.drop 1
  pure (snapshot_parse rsp, c)

/-! ### Machine.start drive preparation (Machine.py lines 118..128) -/

/-- One externally observable action of the drive loop in Machine.start,
ending with the hypervisor launch. -/
inductive StartEv where
  | snapApply (snap img : String) : StartEv
  | snapCreate (snap img : String) : StartEv
  | pushLayer (name : String) : StartEv
  | launch : StartEv
deriving Repr, DecidableEq

/-- The per-drive body of the loop in Machine.start: revert the backing
file to preboot when the top layer lists a preboot snapshot, else create
preboot on the backing file; then, only when the machine is ephemeral,
push a fresh layer (tmpName is the mkstemp oracle). -/
def prep_drive (snapsOf : String → List String) (ephemeral : Bool)
    (tmpName : String) (d : Drive) : List StartEv × Drive :=
  let snapEv :=
    if "preboot" ∈ Drive.snapshots snapsOf d then
      StartEv.snapApply "preboot" d.backing_file
    else
      StartEv.snapCreate "preboot" d.backing_file
  if ephemeral then
    let r := create_disk_layer d tmpName 0
    ([snapEv, StartEv.pushLayer r.2.1], r.1)
  else ([snapEv], d)

/-- The drive loop of Machine.start over a list of drives paired with
their mkstemp oracle names. -/
def start_drives (snapsOf : String → List String) (ephemeral : Bool) :
    List (Drive × String) → List StartEv × List Drive
  | [] => ([], [])
  | (d, nm) :: rest =>
    let p := prep_drive snapsOf ephemeral nm d
    let r := start_drives snapsOf ephemeral rest
    (p.1 ++ r.1, p.2 :: r.2)

/-- Machine.start, abstracted to its drive-state effects: the whole drive
loop runs first, then the hypervisor process is launched. -/
def start_events (snapsOf : String → List String) (ephemeral : Bool)
    (pairs : List (Drive × String)) : List StartEv :=
  (start_drives snapsOf ephemeral pairs).1 ++ [StartEv.launch]

/-! ### Helper lemmas -/

/-- pyLast of a stack with a layer appended is that layer. -/
theorem pyLast_append (l : List String) (a : String) :
    pyLast (l ++ [a]) = a := by
  simp [pyLast, List.getLastD_eq_getLast?, List.getLast?_concat]

/-- parse_rows succeeds and returns the second field of every non-ID row
when each such row has at least two whitespace-delimited fields. -/
theorem parse_rows_good (rows : List String)
    (h : ∀ l ∈ rows.filter (fun l => !(pyStartsWith l "ID")), 2 ≤ (pyWords l).length) :
    parse_rows rows =
      some ((rows.filter (fun l => !(pyStartsWith l "ID"))).map
        (fun l => (pyWords l).getD 1 "")) := by
  induction rows with
  | nil => rfl
  | cons line rest ih =>
    cases hid : pyStartsWith line "ID" with
    | true =>
      have hf : (line :: rest).filter (fun l => !(pyStartsWith l "ID")) =
          rest.filter (fun l => !(pyStartsWith l "ID")) := by
        simp [List.filter_cons, hid]
      rw [hf] at h
      rw [hf]
      simpa [parse_rows, hid] using ih h
    | false =>
      have hf : (line :: rest).filter (fun l => !(pyStartsWith l "ID")) =
          line :: rest.filter (fun l => !(pyStartsWith l "ID")) := by
        simp [List.filter_cons, hid]
      rw [hf] at h
      have hlen : 2 ≤ (pyWords line).length := h line (by simp)
      have hrest : ∀ l ∈ rest.filter (fun l => !(pyStartsWith l "ID")),
          2 ≤ (pyWords l).length := fun l hl => h l (List.mem_cons_of_mem _ hl)
      cases hx : (pyWords line)[1]? with
      | none =>
        exfalso
        have := List.getElem?_eq_none_iff.mp hx
        omega
      | some x =>
        have hgd : (pyWords line).getD 1 "" = x := by
          rw [List.getD_eq_getElem?_getD, hx]; rfl
        rw [hf]
        simp [parse_rows, hid, hx, ih hrest, hgd]

/-- launch is never among the events a single drive preparation emits. -/
theorem launch_not_in_prep (snapsOf : String → List String) (eph : Bool)
    (nm : String) (d : Drive) :
    StartEv.launch ∉ (prep_drive snapsOf eph nm d).1 := by
  simp only [prep_drive]
  split <;> split <;> simp

/-- launch is never among the events the drive loop emits. -/
theorem launch_not_in_start_drives (snapsOf : String → List String) (eph : Bool)
    (pairs : List (Drive × String)) :
    StartEv.launch ∉ (start_drives snapsOf eph pairs).1 := by
  induction pairs with
  | nil => simp [start_drives]
  | cons p rest ih =>
    obtain ⟨d, nm⟩ := p
    simp only [start_drives, List.mem_append]
    push_neg
    exact ⟨launch_not_in_prep snapsOf eph nm d, ih⟩

/-! ### Claim theorems -/

/-- Claim C2: take_snapshot performs exactly this dialogue in order: an
initial await-prompt that is non-fatal on timeout (the first queued
response may be a TIMEOUT and the dialogue still completes), send stop,
await the prompt, send the save-snapshot command with the name, await the
prompt, send cont, await the prompt, with a settle sleep after each phase
boundary. -/
theorem take_snapshot_dialogue (name : String) (r0 : Option (List String))
    (b1 b2 b3 : List String) (rest : List (Option (List String)))
    (tr : List DlgEv) :
    take_snapshot name ⟨r0 :: some b1 :: some b2 :: some b3 :: rest, tr⟩ =
      .ok ⟨rest, tr ++ [DlgEv.await, DlgEv.send "stop", DlgEv.await, DlgEv.sleep,
        DlgEv.send ("savevm " ++ name ++ "\n"), DlgEv.await, DlgEv.sleep,
        DlgEv.send "cont", DlgEv.await, DlgEv.sleep]⟩ := by
  simp only [take_snapshot, expectPrompt, expectExact, sendline, settle, bind,
    Except.bind, List.append_assoc]
  rfl

/-- Claim C1: goto_snapshot sends stop, awaits the prompt, sends the loadvm
command with the name, awaits the prompt; when the response body before the
prompt (with its first line, the echoed command, dropped) contains the
does-not-exist marker it raises SnapshotNotFound without sending cont, and
when the marker is absent it sends cont and awaits the prompt. -/
theorem goto_snapshot_claim (name : String) (b0 body b2 : List String)
    (rest : List (Option (List String))) (tr : List DlgEv) :
    ((body.drop 1).any (fun r => strContains r goto_marker) = true →
      goto_snapshot name ⟨some b0 :: some body :: rest, tr⟩ =
        .error (.snapshotNotFound, ⟨rest, tr ++ [DlgEv.send "stop", DlgEv.await,
          DlgEv.send ("loadvm " ++ name), DlgEv.await]⟩)) ∧
    ((body.drop 1).any (fun r => strContains r goto_marker) = false →
      goto_snapshot name ⟨some b0 :: some body :: some b2 :: rest, tr⟩ =
        .ok ⟨rest, tr ++ [DlgEv.send "stop", DlgEv.await,
          DlgEv.send ("loadvm " ++ name), DlgEv.await,
          DlgEv.send "cont", DlgEv.await]⟩) := by
  constructor
  · intro h
    simp only [goto_snapshot, expectPrompt, expectExact, sendline, bind, Except.bind]
    rw [h]
    simp
  · intro h
    simp only [goto_snapshot, expectPrompt, expectExact, sendline, bind, Except.bind]
    rw [h]
    simp [pure, Except.pure]

/-- Claim C1 witness: a loadvm response carrying the marker raises
SnapshotNotFound with no cont sent; a marker-free response completes the
dialogue with cont. -/
theorem goto_snapshot_claim_witness :
    goto_snapshot "missing" ⟨[some ["stop"],
        some ["loadvm missing", "Device ide0-hd0 does not have the requested snapshot"]], []⟩ =
      .error (.snapshotNotFound, ⟨[], [DlgEv.send "stop", DlgEv.await,
        DlgEv.send "loadvm missing", DlgEv.await]⟩) ∧
    goto_snapshot "cp" ⟨[some ["stop"], some ["loadvm cp"], some ["cont"]], []⟩ =
      .ok ⟨[], [DlgEv.send "stop", DlgEv.await, DlgEv.send "loadvm cp",
        DlgEv.await, DlgEv.send "cont", DlgEv.await]⟩ :=
  ⟨(goto_snapshot_claim "missing" ["stop"]
      ["loadvm missing", "Device ide0-hd0 does not have the requested snapshot"]
      [] [] []).1 (by decide),
   (goto_snapshot_claim "cp" ["stop"] ["loadvm cp"] ["cont"] [] []).2 (by decide)⟩

/-- Claim C7: the snapshots property sends info snapshots, awaits the
prompt and parses the body: the sentinel line (after dropping the echoed
command line) yields the empty list; otherwise one header line is dropped,
rows starting with ID are skipped, and the second whitespace-delimited
field of each remaining row is returned in row order. -/
theorem snapshots_claim (body : List String) (rest : List (Option (List String)))
    (tr : List DlgEv) :
    Machine.snapshots ⟨some body :: rest, tr⟩ =
      .ok (snapshot_parse (body.drop 1),
        ⟨rest, tr ++ [DlgEv.send "info snapshots", DlgEv.await]⟩) ∧
    (no_snapshot_sentinel ∈ body.drop 1 → snapshot_parse (body.drop 1) = some []) ∧
    (no_snapshot_sentinel ∉ body.drop 1 →
      (∀ l ∈ (body.drop 2).filter (fun l => !(pyStartsWith l "ID")),
        2 ≤ (pyWords l).length) →
      snapshot_parse (body.drop 1) =
        some (((body.drop 2).filter (fun l => !(pyStartsWith l "ID"))).map
          (fun l => (pyWords l).getD 1 ""))) := by
  refine ⟨?_, ?_, ?_⟩
  · simp only [Machine.snapshots, expectPrompt, expectExact, sendline, bind,
      Except.bind, List.append_assoc]
    rfl
  · intro h
    simp only [snapshot_parse]
    rw [if_pos h]
  · intro h hrows
    have hdd : (body.drop 1).drop 1 = body.drop 2 := by rw [List.drop_drop]
    simp only [snapshot_parse]
    rw [if_neg h, hdd]
    exact parse_rows_good (body.drop 2) hrows

/-- Claim C7 witness: a listing with the header, the ID column row and one
data row parses to that row's name; a sentinel body parses to the empty
list. -/
theorem snapshots_claim_witness :
    snapshot_parse (["info snapshots",
      "List of snapshots present on all disks:",
      "ID        TAG                 VM SIZE                DATE       VM CLOCK",
      "1         checkpoint             41M 2020-01-01 00:00:00   00:00:01"].drop 1) =
      some ["checkpoint"] ∧
    snapshot_parse (["info snapshots", no_snapshot_sentinel].drop 1) = some [] := by
  constructor
  · have h := (snapshots_claim ["info snapshots",
      "List of snapshots present on all disks:",
      "ID        TAG                 VM SIZE                DATE       VM CLOCK",
      "1         checkpoint             41M 2020-01-01 00:00:00   00:00:01"] [] []).2.2
      (by decide) (by decide)
    rw [h]
    decide
  · exact (snapshots_claim ["info snapshots", no_snapshot_sentinel] [] []).2.1 (by decide)

/-- Claim C4 counterexample: on a pidfile that stays empty,
get_pid_of_qemu runs the retry ceiling down and then returns the ordinary
non-error value None (the falsy give-up of the retry decorator) — it does
not fail: no exception is raised and the result is a plain return,
contradicting the claimed fails-with-NotReady behavior. -/
theorem get_pid_empty_cex :
    get_pid_of_qemu (fun _ => "") = .ok none := rfl

/-- Claim C4 as amended: get_pid_of_qemu returns 1234 on a pidfile whose
first line reads 1234, and on a pidfile that stays empty it re-polls at
the 1-second interval up to the 5-second ceiling and then returns the
non-error value None (the retry decorator's falsy give-up) instead of a
process identity; no exception is raised. -/
theorem get_pid_claim (fileAt : Nat → String) :
    (fileAt 0 = "1234" → get_pid_of_qemu fileAt = .ok (some 1234)) ∧
    ((∀ t, t ≤ 5 → fileAt t = "") → get_pid_of_qemu fileAt = .ok none) := by
  constructor
  · intro h
    have hr : read_pid_attempt (fileAt 0) = .ok (some 1234) := by rw [h]; rfl
    have ht : pidTruthy (some 1234) = true := by decide
    simp [get_pid_of_qemu, GET_PID_INTERVAL, GET_PID_MAX_TIME,
      backoff_on_predicate, hr, ht]
  · intro h
    have h0 : read_pid_attempt (fileAt 0) = .ok none := by rw [h 0 (by omega)]; rfl
    have h1 : read_pid_attempt (fileAt 1) = .ok none := by rw [h 1 (by omega)]; rfl
    have h2 : read_pid_attempt (fileAt 2) = .ok none := by rw [h 2 (by omega)]; rfl
    have h3 : read_pid_attempt (fileAt 3) = .ok none := by rw [h 3 (by omega)]; rfl
    have h4 : read_pid_attempt (fileAt 4) = .ok none := by rw [h 4 (by omega)]; rfl
    have h5 : read_pid_attempt (fileAt 5) = .ok none := by rw [h 5 (by omega)]; rfl
    have ht : pidTruthy none = false := rfl
    simp [get_pid_of_qemu, GET_PID_INTERVAL, GET_PID_MAX_TIME,
      backoff_on_predicate, h0, h1, h2, h3, h4, h5, ht]

/-- Claim C4 witness: the constant pidfile 1234 yields 1234; the constant
empty pidfile exhausts the ceiling and yields the None give-up value. -/
theorem get_pid_claim_witness :
    get_pid_of_qemu (fun _ => "1234") = .ok (some 1234) ∧
    get_pid_of_qemu (fun _ => "") = .ok none :=
  ⟨(get_pid_claim (fun _ => "1234")).1 rfl,
   (get_pid_claim (fun _ => "")).2 (fun _ _ => rfl)⟩

/-- Claim C3 counterexample: a process alive at every poll makes kill_qemu
run the retry ceiling down and return the ordinary falsy value False
together with the six signal times — a plain return in the same type as
success, with no exception raised for the caller to observe, contradicting
the claimed fatal-error-surfaced behavior (the source's only caller,
Machine.stop, discards this return value). -/
theorem kill_qemu_ceiling_cex :
    kill_qemu (fun _ => true) = (false, [0, 1, 2, 3, 4, 5]) := by decide

/-- Claim C3 as amended: kill_qemu on an already-absent process returns
success without sending any signal; on a process that never dies it sends
the interrupt signal at every 1-second poll up to the 5-second ceiling and
then gives up, returning the falsy value False — the failure is visible
only in this return value, no exception is raised; a process that
disappears within the ceiling yields success. -/
theorem kill_qemu_claim (alive : Nat → Bool) (k : Nat) :
    (alive 0 = false → kill_qemu alive = (true, [])) ∧
    ((∀ t, alive t = true) → kill_qemu alive = (false, [0, 1, 2, 3, 4, 5])) ∧
    (k ≤ 5 → (∀ j, j < k → alive j = true) → alive k = false →
      (kill_qemu alive).1 = true) := by
  refine ⟨?_, ?_, ?_⟩
  · intro h
    simp [kill_qemu, KILL_MAX_TIME, KILL_INTERVAL, kill_qemu_loop, h]
  · intro hall
    simp [kill_qemu, KILL_MAX_TIME, KILL_INTERVAL, kill_qemu_loop,
      hall 0, hall 1, hall 2, hall 3, hall 4, hall 5]
  · intro hk hlive hdead
    refine kill_qemu_loop_dies alive 5 0 k hk ?_ ?_
    · intro j hj
      simpa using hlive j hj
    · simpa using hdead

/-- Claim C3 witness: an absent process yields success with no signals; an
immortal process is signalled at seconds 0 through 5 and reported failed; a
process dying at second 3 yields success. -/
theorem kill_qemu_claim_witness :
    kill_qemu (fun _ => false) = (true, []) ∧
    kill_qemu (fun _ => true) = (false, [0, 1, 2, 3, 4, 5]) ∧
    (kill_qemu (fun t => decide (t < 3))).1 = true :=
  ⟨(kill_qemu_claim (fun _ => false) 0).1 rfl,
   (kill_qemu_claim (fun _ => true) 0).2.1 (fun _ => rfl),
   (kill_qemu_claim (fun t => decide (t < 3)) 3).2.2 (by omega)
     (fun j hj => decide_eq_true hj) (by decide)⟩

/-- Claim C9: get_serial_socket retries connecting at the 1-second interval
up to the 50-second ceiling, returns the socket of the first successful
connect, and past the ceiling the connection failure propagates to the
caller (the ConnectionTimeout outcome). -/
theorem get_serial_socket_claim (sockAt : Nat → Option Nat) (k s : Nat) :
    ((∀ t, t ≤ 50 → sockAt t = none) →
      get_serial_socket sockAt = .error .connectionRefused) ∧
    (k ≤ 50 → (∀ j, j < k → sockAt j = none) → sockAt k = some s →
      get_serial_socket sockAt = .ok s) := by
  constructor
  · intro h
    have hf : ∀ u, u ≤ 0 + (SOCKET_MAX_TIME / SOCKET_INTERVAL) →
        ∃ e, (fun t => match sockAt t with
          | some s => Except.ok s
          | none => Except.error ConnectErr.connectionRefused) u = .error e := by
      intro u hu
      have : sockAt u = none := h u (by simpa [SOCKET_MAX_TIME, SOCKET_INTERVAL] using hu)
      exact ⟨ConnectErr.connectionRefused, by simp [this]⟩
    obtain ⟨e, he⟩ := backoff_on_exception_all_fail1 _ (SOCKET_MAX_TIME / SOCKET_INTERVAL) 0 hf
    cases e
    exact he
  · intro hk hfail hok
    refine backoff_on_exception_first_ok _ (SOCKET_MAX_TIME / SOCKET_INTERVAL) 0 k s
      (by simpa [SOCKET_MAX_TIME, SOCKET_INTERVAL] using hk) ?_ ?_
    · intro j hj
      have h2 : sockAt j = none := hfail j hj
      exact ⟨ConnectErr.connectionRefused, by simp [Nat.zero_add, h2]⟩
    · have h2 : sockAt k = some s := hok
      simp [Nat.zero_add, h2]

/-- Claim C9 witness: a socket that never listens exhausts the ceiling and
fails; one that starts listening at second 2 is returned. -/
theorem get_serial_socket_claim_witness :
    get_serial_socket (fun _ => none) = .error .connectionRefused ∧
    get_serial_socket (fun t => if t = 2 then some 7 else none) = .ok 7 :=
  ⟨(get_serial_socket_claim (fun _ => none) 0 0).1 (fun _ _ => rfl),
   (get_serial_socket_claim (fun t => if t = 2 then some 7 else none) 2 7).2
     (by omega) (fun j hj => by interval_cases j <;> rfl) (by decide)⟩

/-- Claim C5: from any freshly constructed Drive, after any sequence of
push and pop layer operations the layer stack is non-empty with the
original backing file first; pop removes and returns the top layer when
more than one layer exists, and is a no-op returning None when only the
backing file remains. -/
theorem drive_stack_invariant (file : String) (i : Option String) (m : String)
    (ix : Option Int) (ops : List DriveOp) :
    (applyOps (Drive.init file i m ix) ops).layers ≠ [] ∧
    (applyOps (Drive.init file i m ix) ops).layers.head? = some file ∧
    ((applyOps (Drive.init file i m ix) ops).layers.length = 1 →
      delete_disk_layer (applyOps (Drive.init file i m ix) ops) =
        (applyOps (Drive.init file i m ix) ops, none)) ∧
    (1 < (applyOps (Drive.init file i m ix) ops).layers.length →
      (delete_disk_layer (applyOps (Drive.init file i m ix) ops)).1.layers =
        (applyOps (Drive.init file i m ix) ops).layers.dropLast ∧
      (delete_disk_layer (applyOps (Drive.init file i m ix) ops)).2 =
        (applyOps (Drive.init file i m ix) ops).layers.getLast?) := by
  have hhead : (applyOps (Drive.init file i m ix) ops).layers.head? = some file :=
    applyOps_head ops (Drive.init file i m ix) file rfl
  refine ⟨?_, hhead, ?_, ?_⟩
  · intro hnil
    rw [hnil] at hhead
    simp at hhead
  · intro hlen
    have : ¬ 1 < (applyOps (Drive.init file i m ix) ops).layers.length := by omega
    simp [delete_disk_layer, this]
  · intro hlen
    simp [delete_disk_layer, hlen]

/-- Claim C5 witness: popping the one-layer stack is a no-op returning
None; after one push, pop returns the pushed layer. -/
theorem drive_stack_invariant_witness :
    delete_disk_layer (applyOps (Drive.init "base.img" (some "ide") "disk" none) []) =
      (applyOps (Drive.init "base.img" (some "ide") "disk" none) [], none) ∧
    (delete_disk_layer (applyOps (Drive.init "base.img" (some "ide") "disk" none)
      [DriveOp.push "layer1" 0])).2 = some "layer1" := by
  constructor
  · exact (drive_stack_invariant "base.img" (some "ide") "disk" none []).2.2.1 (by decide)
  · have h := (drive_stack_invariant "base.img" (some "ide") "disk" none
      [DriveOp.push "layer1" 0]).2.2.2 (by decide)
    rw [h.2]
    decide

/-- Claim C6 counterexample: to_drive_string does not produce the media
component of the claimed bus/media/index/path tuple — two drives differing
only in media render to the identical string, which carries no media field
at all. -/
theorem to_drive_string_media_cex :
    to_drive_string ⟨"base.img", some "ide", "disk", ["base.img"], some 0⟩ =
      to_drive_string ⟨"base.img", some "ide", "cdrom", ["base.img"], some 0⟩ ∧
    strContains (to_drive_string ⟨"base.img", some "ide", "disk", ["base.img"], some 0⟩)
      "media" = false ∧
    to_drive_string ⟨"base.img", some "ide", "disk", ["base.img"], some 0⟩ =
      "if=ide,file=base.img,index=0" := by
  refine ⟨rfl, by decide, by decide⟩

/-- Claim C6 as amended: to_drive_string is a pure function of the drive
state producing the bus/index/path fields (the media kind is not rendered)
for the current top layer only: after push_layer it renders exactly as a
drive whose only layer is the just-created one, and it depends on nothing
but the interface, the index and the top layer. -/
theorem to_drive_string_amended (d d2 : Drive) (nm : String) (e : Int) :
    to_drive_string (create_disk_layer d nm e).1 =
      to_drive_string (Drive.mk d.backing_file d.interface d.media [nm] d.index) ∧
    (d.interface = d2.interface → d.index = d2.index →
      pyLast d.layers = pyLast d2.layers → to_drive_string d = to_drive_string d2) := by
  constructor
  · simp [to_drive_string, create_disk_layer, pyLast_append, pyLast]
  · intro h1 h2 h3
    simp only [to_drive_string]
    rw [h1, h2, h3]

/-- Claim C6 amended witness: pushing layer1 makes the drive render as a
single-layer drive on layer1; drives agreeing on interface, index and top
layer render identically even with different media and backing files. -/
theorem to_drive_string_amended_witness :
    to_drive_string (create_disk_layer ⟨"base.img", some "ide", "disk", ["base.img"], none⟩
        "layer1" 7).1 =
      to_drive_string ⟨"base.img", some "ide", "disk", ["layer1"], none⟩ ∧
    to_drive_string ⟨"base.img", some "ide", "disk", ["base.img", "l1"], none⟩ =
      to_drive_string ⟨"other.img", some "ide", "cdrom", ["x", "l1"], none⟩ :=
  ⟨(to_drive_string_amended ⟨"base.img", some "ide", "disk", ["base.img"], none⟩
      ⟨"base.img", some "ide", "disk", ["base.img"], none⟩ "layer1" 7).1,
   (to_drive_string_amended ⟨"base.img", some "ide", "disk", ["base.img", "l1"], none⟩
      ⟨"other.img", some "ide", "cdrom", ["x", "l1"], none⟩ "z" 0).2 rfl rfl (by decide)⟩

/-- Claim C8 counterexample: with a nonzero exit status of the qemu-img
create invocation, create_disk_layer still extends the layer stack and
returns the new path — there is no failure and the stack is not left
unchanged, contradicting the claimed IOFailure behavior. -/
theorem create_disk_layer_exit_cex :
    (create_disk_layer (Drive.init "base.img" (some "ide") "disk" none) "layer1" 1).1.layers =
      ["base.img", "layer1"] ∧
    (create_disk_layer (Drive.init "base.img" (some "ide") "disk" none) "layer1" 1).2.1 =
      "layer1" ∧
    (create_disk_layer (Drive.init "base.img" (some "ide") "disk" none) "layer1" 1).1.layers ≠
      (Drive.init "base.img" (some "ide") "disk" none).layers := by
  refine ⟨rfl, rfl, by decide⟩

/-- Claim C8 as amended: create_disk_layer ignores the exit status of the
disk-image tool entirely — for every exit status it behaves identically,
appending the new copy-on-write layer backed by the previous top to the
stack, returning its path, and making it the new top; no IOFailure is ever
reported. -/
theorem create_disk_layer_amended (d : Drive) (nm : String) (e e2 : Int) :
    create_disk_layer d nm e = create_disk_layer d nm e2 ∧
    (create_disk_layer d nm e).1.layers = d.layers ++ [nm] ∧
    (create_disk_layer d nm e).2.1 = nm ∧
    (create_disk_layer d nm e).2.2 = pyLast d.layers ∧
    pyLast (create_disk_layer d nm e).1.layers = nm := by
  refine ⟨rfl, rfl, rfl, rfl, ?_⟩
  simp [create_disk_layer, pyLast_append]

/-- Claim C10: the drive loop of Machine.start mutates each drive's
backing image before the hypervisor launch and independently of the
ephemeral flag — applying preboot when the top layer's snapshot listing
contains it, creating it on the backing file otherwise — and pushes a
fresh top layer afterwards exactly when the machine is ephemeral; the
launch event strictly follows every drive-loop event. -/
theorem start_preboot_claim (snapsOf : String → List String) (eph : Bool)
    (nm : String) (d : Drive) (pairs : List (Drive × String)) :
    (prep_drive snapsOf eph nm d).1 =
      (if "preboot" ∈ snapsOf (pyLast d.layers) then
        [StartEv.snapApply "preboot" d.backing_file]
       else [StartEv.snapCreate "preboot" d.backing_file]) ++
      (if eph then [StartEv.pushLayer nm] else []) ∧
    (prep_drive snapsOf eph nm d).2 =
      (if eph then { d with layers := d.layers ++ [nm] } else d) ∧
    (start_events snapsOf eph pairs).getLast? = some StartEv.launch ∧
    StartEv.launch ∉ (start_drives snapsOf eph pairs).1 := by
  refine ⟨?_, ?_, ?_, launch_not_in_start_drives snapsOf eph pairs⟩
  · simp only [prep_drive, Drive.snapshots, create_disk_layer]
    split <;> split <;> simp
  · simp only [prep_drive, Drive.snapshots, create_disk_layer]
    split <;> split <;> simp
  · simp [start_events]
